import Mathlib

/-!
Verification development for the ion-channel simulation engine
(`src/pyengine/src/ion_channel_engine/`): a continuous-time Markov model of
channel gating coupled to bulk potassium-concentration dynamics.

The Python sources are embedded shallowly: machine floats become `ℚ`
(the repository performs only field arithmetic, comparisons and calls to
`exp`/`log`, which are kept abstract as function parameters), dictionaries
become association lists, and fallible operations return `Except PyErr` or
`Option`.  Each definition's doc comment names the source lines it embeds.
-/

set_option maxHeartbeats 1000000

namespace IonLabs

/-- Python-level failures that the embedded code can raise.  `attributeError`
models an access to an attribute that was never assigned, `validationError` a
pydantic schema rejection, `nameError` the NameError raised when a lambdified
sympy expression with a free symbol is called, `parseError` a syntax failure
inside `sympy.parse_expr`, and `integrationFailure` the solver-failure report
that the specification demands (it never occurs in the code, see C7). -/
inductive PyErr where
  | attributeError
  | validationError
  | nameError (sym : String)
  | parseError (msg : String)
  | typeError
  | integrationFailure (t : ℚ)
deriving DecidableEq, Repr

/-- Conformational state of the channel: `schemas.py` class `State`
(lines 21-25): an id, a display name and a conductance in nS. -/
structure State where
  id : String
  name : String
  conductance : ℚ
deriving DecidableEq, Repr

/-- Reusable rate equation: `schemas.py` class `RateFunction` (lines 28-31). -/
structure RateFunction where
  id : String
  equation : String
deriving DecidableEq, Repr

/-- Directed transition between two states: `schemas.py` class `Transition`
(lines 34-40); `multiplier` defaults to 1.0 in the schema and is stored
explicitly here. -/
structure Transition where
  from_state : String
  to_state : String
  rate_function_id : String
  multiplier : ℚ
deriving DecidableEq, Repr

/-- Whole channel model: `schemas.py` class `ChannelModel` (lines 42-50). -/
structure ChannelModel where
  channel_id : String
  states : List State
  rate_functions : List RateFunction
  transitions : List Transition
deriving DecidableEq, Repr

/-- State-id-to-index map, `simulation.py:65`
(`self.state_map = {state.id: i for i, state in enumerate(model.states)}`).
A Python dict comprehension keeps the **last** index when an id repeats, hence
the reverse search; a missing id (Python `KeyError` on lookup) is `none`. -/
def state_map (m : ChannelModel) (sid : String) : Option (Fin m.states.length) :=
  (List.finRange m.states.length).reverse.find? (fun i => (m.states.get i).id == sid)

/-- Per-state conductance vector, `simulation.py:67`. -/
def conductances (m : ChannelModel) : List ℚ :=
  m.states.map (·.conductance)

/-- Rate for one transition, `simulation.py:115`
(`rate = self._rate_functions[trans.rate_function_id](V) * trans.multiplier`).
The compiled-rate-function table `rfs` maps a function id to the callable that
`sympy.lambdify` produced for it; a missing id (`KeyError`) is `none`. -/
def transRate (rfs : String → Option (ℚ → ℚ)) (V : ℚ) (t : Transition) : Option ℚ :=
  (rfs t.rate_function_id).map (fun f => f V * t.multiplier)

/-- In-place addition of `r` to entry `(i, j)` of a matrix, the effect of one
`Q[i, j] += r` numpy statement. -/
def addEntry {n : ℕ} (Q : Fin n → Fin n → ℚ) (i j : Fin n) (r : ℚ) :
    Fin n → Fin n → ℚ :=
  fun a b => if a = i ∧ b = j then Q a b + r else Q a b

/-- Effect of one loop iteration of the Q-matrix construction,
`simulation.py:116-117` (`Q[to_idx, from_idx] += rate` then
`Q[from_idx, from_idx] -= rate`). -/
def applyTrans {n : ℕ} (Q : Fin n → Fin n → ℚ) (fi ti : Fin n) (r : ℚ) :
    Fin n → Fin n → ℚ :=
  addEntry (addEntry Q ti fi r) fi fi (-r)

/-- The transition loop of `SimulationEngine._ode_system`,
`simulation.py:113-117`, threading the accumulated matrix through the
remaining transitions; any failed lookup (`KeyError`) aborts with `none`. -/
def buildQAux (m : ChannelModel) (rfs : String → Option (ℚ → ℚ)) (V : ℚ) :
    List Transition → (Fin m.states.length → Fin m.states.length → ℚ) →
    Option (Fin m.states.length → Fin m.states.length → ℚ)
  | [], Q => some Q
  | t :: ts, Q =>
    match state_map m t.from_state, state_map m t.to_state, transRate rfs V t with
    | some fi, some ti, some r => buildQAux m rfs V ts (applyTrans Q fi ti r)
    | _, _, _ => none

/-- Generator-matrix assembly of `SimulationEngine._ode_system`,
`simulation.py:110-117`: start from `np.zeros((n, n))` and apply every
transition of the model in declaration order. -/
def buildQ (m : ChannelModel) (rfs : String → Option (ℚ → ℚ)) (V : ℚ) :
    Option (Fin m.states.length → Fin m.states.length → ℚ) :=
  buildQAux m rfs V m.transitions (fun _ _ => 0)

/-- Sum of column `j` of a square matrix. -/
def colSum {n : ℕ} (Q : Fin n → Fin n → ℚ) (j : Fin n) : ℚ :=
  ∑ i, Q i j

/-- Total outflow rate of state `j`: the sum, over the model's transitions
that leave state `j` for a **different** state, of the transition's rate at
voltage `V`.  A self-transition moves no probability (lines 116-117 add and
subtract its rate at the same diagonal entry), so it is not outflow. -/
def outgoingList (m : ChannelModel) (rfs : String → Option (ℚ → ℚ)) (V : ℚ)
    (ts : List Transition) (j : Fin m.states.length) : ℚ :=
  (ts.map (fun t =>
    if state_map m t.from_state = some j ∧ state_map m t.to_state ≠ some j
    then (transRate rfs V t).getD 0 else 0)).sum

/-- Total outflow rate of state `j` over the whole model. -/
def outgoingSum (m : ChannelModel) (rfs : String → Option (ℚ → ℚ)) (V : ℚ)
    (j : Fin m.states.length) : ℚ :=
  outgoingList m rfs V m.transitions j

/-- Probability derivative `d_probabilities_dt = Q @ probabilities`,
`simulation.py:118`. -/
def dProbs {n : ℕ} (Q : Fin n → Fin n → ℚ) (P : Fin n → ℚ) : Fin n → ℚ :=
  fun i => ∑ j, Q i j * P j

/-- Referential integrity of a model against a compiled-rate table: every
transition endpoint is a declared state id and every referenced rate-function
id is compiled.  This is the precondition the external validator guarantees
(spec section 3); the engine itself never re-checks it. -/
def refIntegrity (m : ChannelModel) (rfs : String → Option (ℚ → ℚ)) : Prop :=
  ∀ t ∈ m.transitions,
    (state_map m t.from_state).isSome = true ∧
    (state_map m t.to_state).isSome = true ∧
    (rfs t.rate_function_id).isSome = true

lemma colSum_addEntry {n : ℕ} (Q : Fin n → Fin n → ℚ) (i j : Fin n) (r : ℚ)
    (j' : Fin n) :
    colSum (addEntry Q i j r) j' = colSum Q j' + if j' = j then r else 0 := by
  unfold colSum addEntry
  by_cases h : j' = j
  · subst h
    simp only [and_true, if_pos rfl]
    have : ∀ a : Fin n, (if a = i then Q a j' + r else Q a j') =
        Q a j' + (if a = i then r else 0) := by
      intro a; by_cases ha : a = i <;> simp [ha]
    rw [Finset.sum_congr rfl (fun a _ => this a), Finset.sum_add_distrib,
      Finset.sum_ite_eq' Finset.univ i (fun _ => r)]
    simp
  · simp [h]

lemma colSum_applyTrans {n : ℕ} (Q : Fin n → Fin n → ℚ) (fi ti : Fin n) (r : ℚ)
    (j : Fin n) :
    colSum (applyTrans Q fi ti r) j = colSum Q j := by
  unfold applyTrans
  rw [colSum_addEntry, colSum_addEntry]
  by_cases h : j = fi <;> simp [h]

lemma buildQAux_colSum (m : ChannelModel) (rfs : String → Option (ℚ → ℚ)) (V : ℚ) :
    ∀ (ts : List Transition) (Q Q' : Fin m.states.length → Fin m.states.length → ℚ),
      buildQAux m rfs V ts Q = some Q' → ∀ j, colSum Q' j = colSum Q j := by
  intro ts
  induction ts with
  | nil =>
    intro Q Q' h j
    simp only [buildQAux] at h
    cases h
    rfl
  | cons t ts ih =>
    intro Q Q' h j
    simp only [buildQAux] at h
    cases h1 : state_map m t.from_state with
    | none => rw [h1] at h; cases h
    | some fi =>
      cases h2 : state_map m t.to_state with
      | none => rw [h1, h2] at h; cases h
      | some ti =>
        cases h3 : transRate rfs V t with
        | none => rw [h1, h2, h3] at h; cases h
        | some r =>
          rw [h1, h2, h3] at h
          rw [ih _ _ h j, colSum_applyTrans]

lemma applyTrans_diag {n : ℕ} (Q : Fin n → Fin n → ℚ) (fi ti : Fin n) (r : ℚ)
    (j : Fin n) :
    applyTrans Q fi ti r j j =
      Q j j - (if fi = j ∧ ti ≠ j then r else 0) := by
  unfold applyTrans addEntry
  by_cases hf : j = fi
  · subst hf
    by_cases ht : j = ti
    · subst ht
      rw [if_pos ⟨rfl, rfl⟩, if_pos ⟨rfl, rfl⟩,
        if_neg (fun h : j = j ∧ j ≠ j => h.2 rfl)]
      ring
    · have ht2 : ti ≠ j := fun h => ht h.symm
      rw [if_pos ⟨rfl, rfl⟩, if_neg (fun h : j = ti ∧ j = j => ht h.1),
        if_pos ⟨rfl, ht2⟩]
      ring
  · have h1 : ¬ (j = fi ∧ j = fi) := fun h => hf h.1
    have h2 : ¬ (j = ti ∧ j = fi) := fun h => hf h.2
    have h3 : ¬ (fi = j ∧ ti ≠ j) := fun h => hf h.1.symm
    rw [if_neg h1, if_neg h2, if_neg h3]
    ring

lemma buildQAux_diag (m : ChannelModel) (rfs : String → Option (ℚ → ℚ)) (V : ℚ) :
    ∀ (ts : List Transition) (Q Q' : Fin m.states.length → Fin m.states.length → ℚ),
      buildQAux m rfs V ts Q = some Q' →
      ∀ j, Q' j j = Q j j - outgoingList m rfs V ts j := by
  intro ts
  induction ts with
  | nil =>
    intro Q Q' h j
    simp only [buildQAux] at h
    cases h
    simp [outgoingList]
  | cons t ts ih =>
    intro Q Q' h j
    simp only [buildQAux] at h
    cases h1 : state_map m t.from_state with
    | none => rw [h1] at h; cases h
    | some fi =>
      cases h2 : state_map m t.to_state with
      | none => rw [h1, h2] at h; cases h
      | some ti =>
        cases h3 : transRate rfs V t with
        | none => rw [h1, h2, h3] at h; cases h
        | some r =>
          rw [h1, h2, h3] at h
          have hrec := ih _ _ h j
          rw [hrec, applyTrans_diag]
          have hout : outgoingList m rfs V (t :: ts) j =
              (if state_map m t.from_state = some j ∧
                  state_map m t.to_state ≠ some j
               then (transRate rfs V t).getD 0 else 0) +
              outgoingList m rfs V ts j := by
            simp [outgoingList]
          rw [hout, h1, h2, h3]
          have hcond : (some fi = some j ∧ some ti ≠ some j) ↔ (fi = j ∧ ti ≠ j) := by
            constructor
            · rintro ⟨ha, hb⟩
              exact ⟨Option.some_inj.mp ha, fun hc => hb (by rw [hc])⟩
            · rintro ⟨ha, hb⟩
              exact ⟨by rw [ha], fun hc => hb (Option.some_inj.mp hc)⟩
          by_cases hc : fi = j ∧ ti ≠ j
          · rw [if_pos hc, if_pos (hcond.mpr hc)]
            simp
            ring
          · rw [if_neg hc, if_neg (fun hcc => hc (hcond.mp hcc))]
            simp

lemma buildQAux_total (m : ChannelModel) (rfs : String → Option (ℚ → ℚ)) (V : ℚ) :
    ∀ (ts : List Transition),
      (∀ t ∈ ts, (state_map m t.from_state).isSome = true ∧
        (state_map m t.to_state).isSome = true ∧
        (rfs t.rate_function_id).isSome = true) →
      ∀ Q, ∃ Q', buildQAux m rfs V ts Q = some Q' := by
  intro ts
  induction ts with
  | nil => intro _ Q; exact ⟨Q, rfl⟩
  | cons t ts ih =>
    intro h Q
    obtain ⟨h1, h2, h3⟩ := h t (List.mem_cons_self t ts)
    obtain ⟨fi, hfi⟩ := Option.isSome_iff_exists.mp h1
    obtain ⟨ti, hti⟩ := Option.isSome_iff_exists.mp h2
    obtain ⟨f, hf⟩ := Option.isSome_iff_exists.mp h3
    have h3' : transRate rfs V t = some (f V * t.multiplier) := by
      simp [transRate, hf]
    obtain ⟨Q', hQ'⟩ := ih (fun u hu => h u (List.mem_cons_of_mem t hu))
      (applyTrans Q fi ti (f V * t.multiplier))
    exact ⟨Q', by simp only [buildQAux]; rw [hfi, hti, h3']; exact hQ'⟩

/-- The two-state C/O test model of `simulation_unittest.py`
(`create_valid_model_data`, lines 11-27): conductances 0 and 1.2 nS, rates
`alpha`/`beta`, transitions C→O (alpha) and O→C (beta). -/
def exModel : ChannelModel :=
  { channel_id := "test_kv1"
    states := [⟨"C", "Closed", 0⟩, ⟨"O", "Open", 6/5⟩]
    rate_functions := [⟨"alpha", "0.1 * exp(V / 25.0)"⟩, ⟨"beta", "0.2 * exp(-V / 50.0)"⟩]
    transitions := [⟨"C", "O", "alpha", 1⟩, ⟨"O", "C", "beta", 1⟩] }

/-- A concrete compiled-rate table for `exModel` used to instantiate theorems:
stand-ins for the two lambdified callables (their analytic form is irrelevant
to the generator-matrix algebra). -/
def exRfs : String → Option (ℚ → ℚ) := fun s =>
  if s == "alpha" then some (fun v => v + 1)
  else if s == "beta" then some (fun v => 2 * v + 1)
  else none

/-- C1: for every channel model satisfying the referential-integrity
precondition and every voltage `V`, the generator matrix `Q` assembled by
`_ode_system` (simulation.py lines 110-118: for each transition,
`rate = rateFn(V) * multiplier`, `Q[to][from] += rate`,
`Q[from][from] -= rate`) exists, every column of `Q` sums to exactly zero,
every diagonal entry equals the negated sum of that state's outgoing rates,
and for every vector `P` the entries of `dP/dt = Q · P` sum to exactly
zero. -/
theorem c1_generator_matrix (m : ChannelModel) (rfs : String → Option (ℚ → ℚ))
    (V : ℚ) (h : refIntegrity m rfs) :
    ∃ Q, buildQ m rfs V = some Q ∧
      (∀ j, colSum Q j = 0) ∧
      (∀ j, Q j j = - outgoingSum m rfs V j) ∧
      (∀ P : Fin m.states.length → ℚ, ∑ i, dProbs Q P i = 0) := by
  obtain ⟨Q, hQ⟩ := buildQAux_total m rfs V m.transitions h (fun _ _ => 0)
  refine ⟨Q, hQ, ?_, ?_, ?_⟩
  · intro j
    have := buildQAux_colSum m rfs V m.transitions _ _ hQ j
    simpa [colSum] using this
  · intro j
    have := buildQAux_diag m rfs V m.transitions _ _ hQ j
    simpa [outgoingSum] using this
  · intro P
    have hcol : ∀ j, colSum Q j = 0 := by
      intro j
      have := buildQAux_colSum m rfs V m.transitions _ _ hQ j
      simpa [colSum] using this
    calc ∑ i, dProbs Q P i = ∑ i, ∑ j, Q i j * P j := rfl
      _ = ∑ j, ∑ i, Q i j * P j := Finset.sum_comm
      _ = ∑ j, (∑ i, Q i j) * P j := by
            refine Finset.sum_congr rfl (fun j _ => ?_)
            rw [Finset.sum_mul]
      _ = ∑ j, (0 : ℚ) * P j := by
            refine Finset.sum_congr rfl (fun j _ => ?_)
            rw [show (∑ i, Q i j) = colSum Q j from rfl, hcol j]
      _ = 0 := by simp

/-- Witness for C1 at the concrete two-state test model. -/
theorem c1_generator_matrix_witness :
    ∃ Q, buildQ exModel exRfs 0 = some Q ∧
      (∀ j, colSum Q j = 0) ∧
      (∀ j, Q j j = - outgoingSum exModel exRfs 0 j) ∧
      (∀ P : Fin exModel.states.length → ℚ, ∑ i, dProbs Q P i = 0) :=
  c1_generator_matrix exModel exRfs 0 (by unfold refIntegrity; decide)

/-- Baseline (holding) record of the draft stimulus schema: `schemas.py`
class `HoldingValues` (lines 119-125).  Field `deelta` is spelled exactly as
in the source (a typo for `delta`); it is **required** by the schema, which
matters because `simulation.py` constructs fallback records that omit it.
`type` is the `Literal['voltage', 'concentration']` tag, kept as a string. -/
structure HoldingValue where
  name : String
  value : ℚ
  deelta : ℚ
  units : String
  type : String
deriving DecidableEq, Repr

/-- The stimulus helper object: `simulation.py` class `Stimulus`
(lines 18-24).  `holding_map` is the dict `{hv.name: hv}` built in
`__init__`; it is the **only** attribute the constructor assigns. -/
structure Stimulus where
  holding_map : List (String × HoldingValue)
deriving DecidableEq, Repr

/-- Lookup in an association list: Python `dict.get`, returning `none` when
the key is absent.  The dicts in this code are built with unique keys. -/
def alookup {α : Type} (l : List (String × α)) (key : String) : Option α :=
  (l.find? (fun p => p.1 == key)).map (·.2)

/-- Embeds `Stimulus.get_value_at_time` (simulation.py lines 27-50) as
written.  Its first executable statement is
`holding_value = self.holding_mape.get(variable_name)` (line 33);
`holding_mape` is never assigned anywhere (`__init__` assigns `holding_map`),
so every invocation raises `AttributeError` and the rest of the body — the
`fluxSteps` scan with `Step`/`Ramp` branches — is unreachable.  (Line 43,
`if flux.type == 'Step'"`, moreover contains a stray quote: the module does
not even parse, so this method can never be loaded, let alone called.) -/
def get_value_at_time (_s : Stimulus) (_variable_name : String) (_t_ms : ℚ) :
    Except PyErr (Option ℚ) :=
  .error .attributeError

/-- Timed override of one stimulus variable.  Modelled from the spec:
section 3's `epochs` entries `{variable, startTimeMs, durationMs, value}`.
The coherent epoch-based protocol is exercised by the tests under `src/`
(`simulation_unittest.py`, `validation_simulation_unittests.py`) but its
implementation is missing from the repository — `simulation.py` holds only
the abandoned, unparseable `fluxSteps` draft.  The field `variable` is named
`variable_name` here because `variable` is a Lean keyword. -/
structure Epoch where
  variable_name : String
  startTimeMs : ℚ
  durationMs : ℚ
  value : ℚ
deriving DecidableEq, Repr

/-- Modelled from the spec: the coherent `StimulusProtocol` of section 3 —
named holding scalars plus an epoch list (the version the tests under `src/`
construct; missing from `simulation.py`, which holds the `fluxSteps`
draft). -/
structure StimulusProtocol where
  holding_values : List (String × ℚ)
  epochs : List Epoch
deriving DecidableEq, Repr

/-- Modelled from the spec: the stimulus evaluator `valueAt(variableName,
tMs)` of section 4.2 — baseline is `holdingValues[variableName]`; an epoch
overrides it when `startTimeMs ≤ tMs < startTimeMs + durationMs` (half-open);
epochs are scanned in declaration order and the first match wins; `none` when
the variable has no holding entry (the intended `dict.get` miss). -/
def valueAt (p : StimulusProtocol) (name : String) (tMs : ℚ) : Option ℚ :=
  (alookup p.holding_values name).map (fun base =>
    match p.epochs.find? (fun e =>
        e.variable_name == name && decide (e.startTimeMs ≤ tMs) &&
        decide (tMs < e.startTimeMs + e.durationMs)) with
    | some e => e.value
    | none => base)

/-- The `None → 0` voltage fallback of `_ode_system`, `simulation.py:103`
(`if V is None: V = 0`). -/
def resolveV (ov : Option ℚ) : ℚ :=
  match ov with
  | none => 0
  | some v => v

/-- Voltage resolution of `_ode_system`, `simulation.py:101-103`:
`t_ms = t_s * 1000.0; V = self.stimulus.get_value_at_time('Voltage', t_ms);
if V is None: V = 0`.  The string literal is `'Voltage'` in the source.  The
evaluator is a parameter because the `Stimulus` method in `src/` raises
unconditionally (see `get_value_at_time`); instantiating `va` with
`valueAt p` shows what the lookup yields against a real protocol. -/
def odeVoltage (va : String → ℚ → Option ℚ) (t_s : ℚ) : ℚ :=
  resolveV (va "Voltage" (t_s * 1000))

/-- Ideal gas constant, `simulation.py:70` (`self.R = 8.314`). -/
def R : ℚ := 8314 / 1000

/-- Faraday constant, `simulation.py:71` (`self.F = 96485`). -/
def F : ℚ := 96485

/-- Temperature in Kelvin, `simulation.py:72` (`self.T = 293.15`). -/
def T : ℚ := 29315 / 100

/-- Valence of potassium, `simulation.py:73` (`self.z = 1`). -/
def z : ℚ := 1

/-- Nernst potential as computed inside `_ode_system`,
`simulation.py:120-123`: `0` when either concentration is non-positive,
otherwise `((R * T) / (z * F) * log(Kout / Kin)) * 1000`.  `np.log` is kept
abstract as the parameter `log`; the guard ensures it is only consulted on a
positive argument. -/
def nernst (log : ℚ → ℚ) (kin kout : ℚ) : ℚ :=
  if kin ≤ 0 ∨ kout ≤ 0 then 0
  else R * T / (z * F) * log (kout / kin) * 1000

/-- Nernst potential as recomputed during post-processing,
`simulation.py:174-176`: a mask `(Kin > 0) & (Kout > 0)` selects the samples
where the formula is applied; all other samples stay at the `np.zeros`
initialisation. -/
def nernst_post (log : ℚ → ℚ) (kin kout : ℚ) : ℚ :=
  if 0 < kin ∧ 0 < kout then R * T / (z * F) * log (kout / kin) * 1000
  else 0

/-- Initial occupancy vector of `SimulationEngine.run`,
`simulation.py:144-145`: `y0_probs = np.zeros(self.num_states)` followed by
`y0_probs[0] = 1.0`. -/
def y0_probs (n : ℕ) : List ℚ :=
  (List.range n).map (fun i => if i = 0 then 1 else 0)

/-- Initial internal potassium of `SimulationEngine.run`, `simulation.py:148`:
`self.holding_map.get('Internal-K', HoldingValue(name='Internal-K',
value=140, delta=0, units='mM', type='concentration', fluxSteps=[])).value`.
The lookup key is the literal `'Internal-K'`.  When the key is absent the
fallback constructs a `HoldingValue`; under the schema actually defined in
`schemas.py` (class `HoldingValues`, whose required field is spelled
`deelta`, and which has no `delta`/`fluxSteps` fields) that construction
raises a pydantic `ValidationError` (`deelta` missing) — and the name
`HoldingValue` is not even importable from `schemas` — so the miss branch is
an error, not the value `140`. -/
def y0_int_k (hm : List (String × HoldingValue)) : Except PyErr ℚ :=
  match alookup hm "Internal-K" with
  | some hv => .ok hv.value
  | none => .error .validationError

/-- Initial external potassium of `SimulationEngine.run`, `simulation.py:149`:
the same pattern with key `'External-K'` and fallback `value=4`; as for
`y0_int_k`, the fallback construction raises, so the miss branch errors
rather than producing `4`. -/
def y0_ext_k (hm : List (String × HoldingValue)) : Except PyErr ℚ :=
  match alookup hm "External-K" with
  | some hv => .ok hv.value
  | none => .error .validationError

/-- Volume initialisation of `SimulationEngine.__init__`,
`simulation.py:76-77`:
`self.volume_internal_L = self.holding_map.get('volume_internal_L',
HoldingValue(name='volume_internal_L'))` (same for external).  On a hit the
whole `HoldingValue` **record** is stored (not its `.value`; lines 130-131
then divide a float by this record, a `TypeError`).  On a miss the fallback
`HoldingValue(name=...)` omits every other required field of the schema
(`value`, `deelta`, `units`, `type`), so its construction raises a pydantic
`ValidationError`.  No numeric default (1e-12 or 1e-6) appears anywhere in
the engine; those literals exist only in the test fixture protocol. -/
def init_volume (hm : List (String × HoldingValue)) (key : String) :
    Except PyErr HoldingValue :=
  match alookup hm key with
  | some hv => .ok hv
  | none => .error .validationError

/-- Argument record of the `scipy.integrate.solve_ivp` invocation. -/
structure SolveIvpCall where
  t_span : ℚ × ℚ
  y0 : List ℚ
  t_eval : List ℚ
  method : String
  rtol : ℚ
  atol : ℚ
deriving DecidableEq, Repr

/-- Evaluation grid `np.linspace(a, b, n)`: `n` points `a + (b - a)·i/(n-1)`;
for `n ≥ 2` the endpoints are included exactly. -/
def linspace (a b : ℚ) (n : ℕ) : List ℚ :=
  (List.range n).map (fun i : ℕ => a + (b - a) * (i : ℚ) / ((n : ℚ) - 1))

/-- The solver invocation of `SimulationEngine.run`, `simulation.py:154-161`:
`t_span_s = [0, duration_ms / 1000.0]`,
`t_eval_s = np.linspace(t_span_s[0], t_span_s[1], steps)`,
`solve_ivp(fun=self._ode_system, t_span=t_span_s, y0=y0, t_eval=t_eval_s,
method='RK45', rtol=1e-6, atol=1e-9)`. -/
def run_solver_call (duration_ms : ℚ) (steps : ℕ) (y0 : List ℚ) : SolveIvpCall :=
  { t_span := (0, duration_ms / 1000)
    y0 := y0
    t_eval := linspace 0 (duration_ms / 1000) steps
    method := "RK45"
    rtol := 1 / 1000000
    atol := 1 / 1000000000 }

/-- What `scipy.integrate.solve_ivp` hands back: the success flag and message
(set to `False` and a diagnostic when the solver cannot satisfy its
tolerances, in which case `t`/`y` hold only the samples reached before the
failure), the sample times `t`, and the solution rows `y` (here a list of
`numStates + 2` rows, each one value per sample). -/
structure OdeSolution where
  success : Bool
  message : String
  t : List ℚ
  y : List (List ℚ)
deriving DecidableEq, Repr

/-- The result dictionary returned by `SimulationEngine.run`,
`simulation.py:182-192`. -/
structure RunResult where
  time_ms : List ℚ
  voltage_mV : List ℚ
  probabilities : List (List ℚ)
  total_conductance_nS : List ℚ
  total_current_pA : List ℚ
  internal_K_mM : List ℚ
  external_K_mM : List ℚ
  nernst_potential_mV : List ℚ
  state_map : List (String × ℕ)
deriving DecidableEq, Repr

/-- Per-sample total conductance `self.conductances @ probabilities`
(simulation.py:178): the dot product of the conductance vector with the
state-probability rows, one value per sample column. -/
def dotCols (cond : List ℚ) (rows : List (List ℚ)) (m : ℕ) : List ℚ :=
  (cond.zip rows).foldl
    (fun acc p => List.zipWith (fun a r => a + p.1 * r) acc p.2)
    (List.replicate m 0)

/-- The per-sample voltage re-query of the post-processing step,
`simulation.py:170`: `np.array([self.stimulus.get_value_at_time('voltage_mV',
t) for t in time_ms])`.  All samples must resolve; a `None` entry would make
the later vectorized subtraction raise, so an unresolved sample aborts the
bundle (`none` here, mapped to `typeError` by the caller). -/
def resolveAll (va : String → ℚ → Option ℚ) : List ℚ → Option (List ℚ)
  | [] => some []
  | t :: ts =>
    match va "voltage_mV" t, resolveAll va ts with
    | some v, some vs => some (v :: vs)
    | _, _ => none

/-- Post-processing of `SimulationEngine.run`, `simulation.py:163-192`,
applied to whatever `solve_ivp` returned: `time_ms = solution.t * 1000`,
rows split into probabilities / internal / external, the voltage trace
re-queried per sample via `get_value_at_time('voltage_mV', t)` (line 170 — a
`None` entry would make the vectorized subtraction at line 179 raise, modelled
as `typeError`), the masked Nernst recomputation (lines 174-176,
`nernst_post`), `total_conductance = conductances @ probabilities` and
`total_current = conductance * (voltage - nernst)` (lines 178-179).  Nothing
here inspects `sol.success` or `sol.message`: the source post-processes and
returns unconditionally, whether or not the integration succeeded. -/
def postprocess (cond : List ℚ) (numStates : ℕ) (smap : List (String × ℕ))
    (va : String → ℚ → Option ℚ) (log : ℚ → ℚ) (sol : OdeSolution) :
    Except PyErr RunResult :=
  let time_ms := sol.t.map (· * 1000)
  let probabilities := sol.y.take numStates
  let internal := sol.y.getD numStates []
  let external := sol.y.getD (numStates + 1) []
  match resolveAll va time_ms with
  | none => .error .typeError
  | some voltage =>
    let nernst_tr := List.zipWith (fun ki ko => nernst_post log ki ko) internal external
    let g := dotCols cond probabilities time_ms.length
    let current := List.zipWith (fun gv dv => gv * dv) g
      (List.zipWith (fun v e => v - e) voltage nernst_tr)
    .ok { time_ms := time_ms
          voltage_mV := voltage
          probabilities := probabilities
          total_conductance_nS := g
          total_current_pA := current
          internal_K_mM := internal
          external_K_mM := external
          nernst_potential_mV := nernst_tr
          state_map := smap }

/-- Lexical token of a rate-equation string. -/
inductive Token where
  | num (q : ℚ)
  | ident (s : String)
  | plus
  | minus
  | star
  | slash
  | lparen
  | rparen
deriving DecidableEq, Repr

/-- Symbolic expression as produced by `sympy.parse_expr` on the rate-equation
grammar (`+ - * /`, parentheses, decimal literals, identifiers, `exp(...)`).
An identifier other than `V`/`exp` becomes a free symbol (`sym`), exactly as
sympy's `auto_symbol` transformation creates a `Symbol` for every name not
bound by `local_dict` — parsing does **not** reject it. -/
inductive SymExpr where
  | num (q : ℚ)
  | sym (name : String)
  | add (a b : SymExpr)
  | sub (a b : SymExpr)
  | mul (a b : SymExpr)
  | div (a b : SymExpr)
  | neg (a : SymExpr)
  | expApp (a : SymExpr)
deriving DecidableEq, Repr

/-- Rational value of a decimal literal given its integer digits and its
(possibly empty) fraction digits. -/
def decVal (ds fs : List Char) : ℚ :=
  let intPart : ℕ := ds.foldl (fun a c => 10 * a + (c.toNat - '0'.toNat)) 0
  let fracPart : ℕ := fs.foldl (fun a c => 10 * a + (c.toNat - '0'.toNat)) 0
  (intPart : ℚ) + (fracPart : ℚ) / ((10 : ℚ) ^ fs.length)

/-- Tokenizer for the rate-equation grammar; an unrecognized character is a
syntax error (sympy raises from inside `parse_expr`).  `fuel` only bounds the
recursion; `tokenize` supplies enough for any input. -/
def tokenizeAux : ℕ → List Char → Except PyErr (List Token)
  | 0, _ => .error (.parseError "tokenizer out of fuel")
  | _ + 1, [] => .ok []
  | fuel + 1, c :: cs =>
    if c = ' ' then tokenizeAux fuel cs
    else if c = '+' then (Token.plus :: ·) <$> tokenizeAux fuel cs
    else if c = '-' then (Token.minus :: ·) <$> tokenizeAux fuel cs
    else if c = '*' then (Token.star :: ·) <$> tokenizeAux fuel cs
    else if c = '/' then (Token.slash :: ·) <$> tokenizeAux fuel cs
    else if c = '(' then (Token.lparen :: ·) <$> tokenizeAux fuel cs
    else if c = ')' then (Token.rparen :: ·) <$> tokenizeAux fuel cs
    else if c.isDigit then
      let p := (c :: cs).span Char.isDigit
      match p.2 with
      | '.' :: rest2 =>
        let q := rest2.span Char.isDigit
        (Token.num (decVal p.1 q.1) :: ·) <$> tokenizeAux fuel q.2
      | _ => (Token.num (decVal p.1 []) :: ·) <$> tokenizeAux fuel p.2
    else if c.isAlpha || c = '_' then
      let p := (c :: cs).span (fun ch => ch.isAlphanum || ch = '_')
      (Token.ident (String.mk p.1) :: ·) <$> tokenizeAux fuel p.2
    else .error (.parseError ("unexpected character " ++ String.mk [c]))

/-- Tokenize a whole equation string. -/
def tokenize (s : String) : Except PyErr (List Token) :=
  tokenizeAux (s.toList.length + 1) s.toList

mutual

/-- Additive level: `term (('+' | '-') term)*`. -/
def parseE : ℕ → List Token → Except PyErr (SymExpr × List Token)
  | 0, _ => .error (.parseError "out of fuel")
  | fuel + 1, ts => do
    let (a, ts) ← parseT fuel ts
    parseERest fuel a ts

/-- Left-associative continuation of the additive level. -/
def parseERest : ℕ → SymExpr → List Token → Except PyErr (SymExpr × List Token)
  | 0, _, _ => .error (.parseError "out of fuel")
  | fuel + 1, acc, Token.plus :: ts => do
    let (b, ts) ← parseT fuel ts
    parseERest fuel (SymExpr.add acc b) ts
  | fuel + 1, acc, Token.minus :: ts => do
    let (b, ts) ← parseT fuel ts
    parseERest fuel (SymExpr.sub acc b) ts
  | _ + 1, acc, ts => .ok (acc, ts)

/-- Multiplicative level: `factor (('*' | '/') factor)*`. -/
def parseT : ℕ → List Token → Except PyErr (SymExpr × List Token)
  | 0, _ => .error (.parseError "out of fuel")
  | fuel + 1, ts => do
    let (a, ts) ← parseF fuel ts
    parseTRest fuel a ts

/-- Left-associative continuation of the multiplicative level. -/
def parseTRest : ℕ → SymExpr → List Token → Except PyErr (SymExpr × List Token)
  | 0, _, _ => .error (.parseError "out of fuel")
  | fuel + 1, acc, Token.star :: ts => do
    let (b, ts) ← parseF fuel ts
    parseTRest fuel (SymExpr.mul acc b) ts
  | fuel + 1, acc, Token.slash :: ts => do
    let (b, ts) ← parseF fuel ts
    parseTRest fuel (SymExpr.div acc b) ts
  | _ + 1, acc, ts => .ok (acc, ts)

/-- Unary level: a chain of unary minuses before an atom. -/
def parseF : ℕ → List Token → Except PyErr (SymExpr × List Token)
  | 0, _ => .error (.parseError "out of fuel")
  | fuel + 1, Token.minus :: ts => do
    let (a, ts) ← parseF fuel ts
    .ok (SymExpr.neg a, ts)
  | fuel + 1, ts => parseAtom fuel ts

/-- Atoms: literals, `exp(...)` calls, bare identifiers (which become free
symbols, sympy's `auto_symbol`), parenthesized expressions. -/
def parseAtom : ℕ → List Token → Except PyErr (SymExpr × List Token)
  | 0, _ => .error (.parseError "out of fuel")
  | fuel + 1, ts =>
    match ts with
    | Token.num q :: ts => .ok (SymExpr.num q, ts)
    | Token.ident "exp" :: Token.lparen :: ts => do
      let (a, ts) ← parseE fuel ts
      match ts with
      | Token.rparen :: ts => .ok (SymExpr.expApp a, ts)
      | _ => .error (.parseError "expected closing parenthesis")
    | Token.ident s :: ts => .ok (SymExpr.sym s, ts)
    | Token.lparen :: ts => do
      let (a, ts) ← parseE fuel ts
      match ts with
      | Token.rparen :: ts => .ok (a, ts)
      | _ => .error (.parseError "expected closing parenthesis")
    | _ => .error (.parseError "unexpected token")

end

/-- Model of `sympy.parsing.sympy_parser.parse_expr(equation,
local_dict={'V': V, 'exp': sympy.exp})` as called at `simulation.py:93`,
restricted to the arithmetic grammar the rate equations use (spec section
4.1).  Two behaviors matter for claim C8 and are exactly sympy's: malformed
syntax raises (modelled `.parseError`), while an identifier not bound by
`local_dict` is silently turned into a free `Symbol` and parsing succeeds. -/
def parse_expr (s : String) : Except PyErr SymExpr := do
  let ts ← tokenize s
  let (e, rest) ← parseE (4 * (ts.length + 1)) ts
  match rest with
  | [] => .ok e
  | _ => .error (.parseError "trailing input")

/-- Model of `SimulationEngine._prepare_rate_equations`,
`simulation.py:81-94`: parse each distinct rate-function id once (the
`if func.id not in self._rate_functions` cache) and store the compiled
expression; a parse failure propagates out of engine construction. -/
def prepare_rate_equations (rfs : List RateFunction) :
    Except PyErr (List (String × SymExpr)) :=
  rfs.foldlM
    (fun acc f =>
      if acc.any (fun p => p.1 == f.id) then .ok acc
      else do
        let e ← parse_expr f.equation
        .ok (acc ++ [(f.id, e)]))
    []

/-- Calling the function `sympy.lambdify(V, parsed_expr, 'numpy')` produced at
`simulation.py:94` on a voltage `v`: the generated lambda has `V` as its only
parameter, so any other free symbol in its body raises `NameError` when the
lambda is first **called** (not when it is built).  `expf` abstracts
`numpy.exp`; division is ℚ-division (numpy float division does not raise). -/
def evalExpr (expf : ℚ → ℚ) (v : ℚ) : SymExpr → Except PyErr ℚ
  | .num q => .ok q
  | .sym s => if s = "V" then .ok v else .error (.nameError s)
  | .add a b => do
    let x ← evalExpr expf v a
    let y ← evalExpr expf v b
    .ok (x + y)
  | .sub a b => do
    let x ← evalExpr expf v a
    let y ← evalExpr expf v b
    .ok (x - y)
  | .mul a b => do
    let x ← evalExpr expf v a
    let y ← evalExpr expf v b
    .ok (x * y)
  | .div a b => do
    let x ← evalExpr expf v a
    let y ← evalExpr expf v b
    .ok (x / y)
  | .neg a => do
    let x ← evalExpr expf v a
    .ok (-x)
  | .expApp a => do
    let x ← evalExpr expf v a
    .ok (expf x)

/-- The voltage-step fixture protocol of `simulation_unittest.py`
(`create_valid_protocol_data`, lines 29-48), in the coherent epoch form:
holding `voltage_mV = -80`, `internal_K_mM = 140`, `external_K_mM = 5`,
volumes `1e-12` / `1e-6`, and one epoch
`{variable: voltage_mV, start_time_ms: 100, duration_ms: 200, value: 40}`. -/
def exProtocol : StimulusProtocol :=
  { holding_values :=
      [("voltage_mV", -80), ("internal_K_mM", 140), ("external_K_mM", 5),
       ("volume_internal_L", 1 / 1000000000000), ("volume_external_L", 1 / 1000000)]
    epochs := [⟨"voltage_mV", 100, 200, 40⟩] }

/-- The holding map a `Stimulus` would carry for the fixture protocol under
the draft record schema: one `HoldingValues` record per named scalar (the
optional volumes are not holding records, matching `VALID_PROTOCOL_DATA` of
`validation_simulation_unittests.py`, which has no volume entries). -/
def fixtureHM : List (String × HoldingValue) :=
  [("voltage_mV", ⟨"voltage_mV", -80, 0, "mV", "voltage"⟩),
   ("internal_K_mM", ⟨"internal_K_mM", 140, 0, "mM", "concentration"⟩),
   ("external_K_mM", ⟨"external_K_mM", 5, 0, "mM", "concentration"⟩)]

/-- C2: the coupled ODE right-hand side is claimed to obtain the membrane
voltage by evaluating the stimulus for the variable named `voltage_mV` at
`tMs = t * 1000`.  The source (`simulation.py:102`) instead queries the
literal `'Voltage'`, a name absent from the fixture protocol, so the `None`
fallback silently forces `V = 0` at every time — including `t = 0.15 s`,
where the protocol's `voltage_mV` is the epoch value `40` (and `-80` at
`t = 0`). -/
theorem c2_ode_voltage_name_eval :
    odeVoltage (valueAt exProtocol) 0 = 0 ∧
    odeVoltage (valueAt exProtocol) (3 / 20) = 0 ∧
    valueAt exProtocol "voltage_mV" 0 = some (-80) ∧
    valueAt exProtocol "voltage_mV" 150 = some 40 ∧
    valueAt exProtocol "Voltage" 150 = none :=
  ⟨rfl, rfl,
   by norm_num [valueAt, alookup, exProtocol, List.find?],
   by norm_num [valueAt, alookup, exProtocol, List.find?],
   rfl⟩

/-- C3: the epoch-override semantics the claim (and the repository's own
`TestStimulus` unit tests) require, checked against the spec-modelled
evaluator at the documented boundary inputs — epoch value at exactly
`startTimeMs`, holding value at exactly `startTimeMs + durationMs` — while
the evaluator actually present in `src/` (`Stimulus.get_value_at_time`)
raises on every call, including the epoch-start input `t = 100`. -/
theorem c3_epoch_boundary_eval :
    valueAt exProtocol "voltage_mV" (999 / 10) = some (-80) ∧
    valueAt exProtocol "voltage_mV" 100 = some 40 ∧
    valueAt exProtocol "voltage_mV" (2999 / 10) = some 40 ∧
    valueAt exProtocol "voltage_mV" 300 = some (-80) ∧
    get_value_at_time ⟨fixtureHM⟩ "voltage_mV" 100 = .error .attributeError :=
  ⟨by norm_num [valueAt, alookup, exProtocol, List.find?],
   by norm_num [valueAt, alookup, exProtocol, List.find?],
   by norm_num [valueAt, alookup, exProtocol, List.find?],
   by norm_num [valueAt, alookup, exProtocol, List.find?],
   rfl⟩

/-- C4: the initial state.  The occupancy part of the claim matches the code
(`y0_probs = [1, 0, ...]`, lines 144-145), but the concentrations are looked
up under the keys `'Internal-K'` / `'External-K'` (lines 148-149), which the
fixture protocol — keyed `internal_K_mM` / `external_K_mM` with external
value `5` — does not contain, so `run` lands in the fallback branch (whose
`HoldingValue` construction itself raises) instead of reading the protocol's
holding values. -/
theorem c4_initial_conditions_eval :
    y0_probs 2 = [1, 0] ∧
    y0_int_k fixtureHM = .error .validationError ∧
    y0_ext_k fixtureHM = .error .validationError ∧
    alookup fixtureHM "external_K_mM" =
      some ⟨"external_K_mM", 5, 0, "mM", "concentration"⟩ :=
  ⟨rfl, rfl, rfl, rfl⟩

/-- C5: the Nernst-potential guard, at both sites.  Whenever `Kin ≤ 0` or
`Kout ≤ 0` the ODE-side value is `0`; for positive concentrations it is
`(R·T)/(z·F) · log(Kout/Kin) · 1000` with the log argument strictly
positive; the vectorized post-processing mask computes the identical value
pointwise; the result only ever depends on `log`'s values at positive
arguments; and the constants are `R = 8.314`, `T = 293.15`, `F = 96485`,
`z = 1`. -/
theorem c5_nernst_guard (log : ℚ → ℚ) (kin kout : ℚ) :
    (kin ≤ 0 ∨ kout ≤ 0 → nernst log kin kout = 0) ∧
    (0 < kin → 0 < kout →
      nernst log kin kout = R * T / (z * F) * log (kout / kin) * 1000 ∧
      0 < kout / kin) ∧
    nernst_post log kin kout = nernst log kin kout ∧
    (∀ log2 : ℚ → ℚ, (∀ x : ℚ, 0 < x → log x = log2 x) →
      nernst log kin kout = nernst log2 kin kout) ∧
    R = 8314 / 1000 ∧ T = 29315 / 100 ∧ F = 96485 ∧ z = 1 := by
  refine ⟨?_, ?_, ?_, ?_, rfl, rfl, rfl, rfl⟩
  · intro h
    simp [nernst, h]
  · intro hin hout
    have hguard : ¬ (kin ≤ 0 ∨ kout ≤ 0) := by
      rintro (h | h)
      · exact absurd hin (not_lt.mpr h)
      · exact absurd hout (not_lt.mpr h)
    exact ⟨by simp [nernst, hguard], div_pos hout hin⟩
  · by_cases hc : 0 < kin ∧ 0 < kout
    · have hguard : ¬ (kin ≤ 0 ∨ kout ≤ 0) := by
        rintro (h | h)
        · exact absurd hc.1 (not_lt.mpr h)
        · exact absurd hc.2 (not_lt.mpr h)
      simp [nernst, nernst_post, hc, hguard]
    · have hguard : kin ≤ 0 ∨ kout ≤ 0 := by
        rcases not_and_or.mp hc with h | h
        · exact Or.inl (not_lt.mp h)
        · exact Or.inr (not_lt.mp h)
      simp [nernst, nernst_post, hc, hguard]
  · intro log2 hagree
    by_cases hguard : kin ≤ 0 ∨ kout ≤ 0
    · simp [nernst, hguard]
    · have hin : 0 < kin := lt_of_not_le (fun h => hguard (Or.inl h))
      have hout : 0 < kout := lt_of_not_le (fun h => hguard (Or.inr h))
      simp [nernst, hguard, hagree (kout / kin) (div_pos hout hin)]

/-- Witness for C5 at concrete concentrations: a non-positive internal
concentration yields a Nernst potential of exactly `0`, and the two sites
agree there. -/
theorem c5_nernst_guard_witness :
    nernst id (-1) 5 = 0 ∧ nernst_post id (-1) 5 = nernst id (-1) 5 :=
  ⟨(c5_nernst_guard id (-1) 5).1 (Or.inl (by norm_num)),
   (c5_nernst_guard id (-1) 5).2.2.1⟩

lemma linspace_length (a b : ℚ) (n : ℕ) : (linspace a b n).length = n := by
  rw [linspace, List.length_map, List.length_range]

lemma linspace_getD (a b : ℚ) (n i : ℕ) (h : i < n) :
    (linspace a b n).getD i 0 = a + (b - a) * i / ((n : ℚ) - 1) := by
  rw [linspace, List.getD_eq_getElem?_getD, List.getElem?_map,
    List.getElem?_range h]
  rfl

/-- Full configuration contract of the integrator invocation (spec section
4.5), as a predicate on the call record `run_solver_call duration steps y0`
builds: method string `RK45`, `rtol = 1e-6`, `atol = 1e-9`, time span
`[0, duration/1000]` seconds, and an evaluation grid of exactly `steps`
points starting at `0`, ending at `duration/1000`, with constant spacing
`(duration/1000)/(steps-1)`. -/
def solver_call_spec (d : ℚ) (steps : ℕ) (y0 : List ℚ) : Prop :=
  (run_solver_call d steps y0).method = "RK45" ∧
  (run_solver_call d steps y0).rtol = 1 / 1000000 ∧
  (run_solver_call d steps y0).atol = 1 / 1000000000 ∧
  (run_solver_call d steps y0).t_span = (0, d / 1000) ∧
  (run_solver_call d steps y0).t_eval.length = steps ∧
  (run_solver_call d steps y0).t_eval.getD 0 0 = 0 ∧
  (run_solver_call d steps y0).t_eval.getD (steps - 1) 0 = d / 1000 ∧
  (∀ i, i + 1 < steps →
    (run_solver_call d steps y0).t_eval.getD (i + 1) 0 -
      (run_solver_call d steps y0).t_eval.getD i 0 =
      (d / 1000) / ((steps : ℚ) - 1))

/-- C6: for every run with `durationMs > 0` and `steps ≥ 2`, the solver is
invoked with method `RK45` (scipy's Dormand-Prince 4(5) pair), relative
tolerance `1e-6`, absolute tolerance `1e-9`, over `t ∈ [0, durationMs/1000]`
seconds, and asked (via `t_eval`) to report the solution at exactly `steps`
evenly spaced sample times spanning `0` to `durationMs/1000` inclusive — a
grid fixed before integration starts, hence independent of the solver's
internal adaptive steps. -/
theorem c6_solver_configuration (d : ℚ) (steps : ℕ) (y0 : List ℚ)
    (_hd : 0 < d) (hs : 2 ≤ steps) : solver_call_spec d steps y0 := by
  have hcast : (2 : ℚ) ≤ (steps : ℚ) := by exact_mod_cast hs
  have hne : ((steps : ℚ) - 1) ≠ 0 := by
    have : (1 : ℚ) < (steps : ℚ) := lt_of_lt_of_le (by norm_num) hcast
    exact sub_ne_zero.mpr (ne_of_gt this)
  refine ⟨rfl, rfl, rfl, rfl, linspace_length _ _ _, ?_, ?_, ?_⟩
  · have h0 : 0 < steps := lt_of_lt_of_le (by norm_num) hs
    rw [show (run_solver_call d steps y0).t_eval = linspace 0 (d / 1000) steps from rfl,
      linspace_getD 0 (d / 1000) steps 0 h0]
    simp
  · have hlt : steps - 1 < steps := by omega
    rw [show (run_solver_call d steps y0).t_eval = linspace 0 (d / 1000) steps from rfl,
      linspace_getD 0 (d / 1000) steps (steps - 1) hlt]
    have hcast1 : ((steps - 1 : ℕ) : ℚ) = (steps : ℚ) - 1 := by
      have h1 : 1 ≤ steps := by omega
      push_cast [Nat.cast_sub h1]
      ring
    rw [hcast1]
    field_simp
    ring
  · intro i hi
    have hi1 : i < steps := by omega
    rw [show (run_solver_call d steps y0).t_eval = linspace 0 (d / 1000) steps from rfl,
      linspace_getD 0 (d / 1000) steps (i + 1) hi,
      linspace_getD 0 (d / 1000) steps i hi1]
    push_cast
    field_simp
    ring

/-- Witness for C6 at `durationMs = 1000`, `steps = 3`. -/
theorem c6_solver_configuration_witness : solver_call_spec 1000 3 [] :=
  c6_solver_configuration 1000 3 [] (by norm_num) (by norm_num)

/-- Discriminates the `ok` outcome of an embedded Python computation. -/
def isOkE {α : Type} : Except PyErr α → Bool
  | .ok _ => true
  | .error _ => false

/-- A concrete failed solver outcome: `solve_ivp` gave up after two samples
(`success = False`, diagnostic message, truncated `t`/`y` arrays) on the
two-state fixture model. -/
def failedSol : OdeSolution :=
  { success := false
    message := "Required step size is less than spacing between numbers."
    t := [0, 1 / 1000]
    y := [[1, 99 / 100], [0, 1 / 100], [140, 140], [5, 5]] }

/-- C7 counterexample: on a failed integration (`success = False`, truncated
arrays) `run` does **not** report an `IntegrationFailure` — it post-processes
the partial arrays and returns a normal result bundle of the truncated length
(here 2 samples). -/
theorem c7_failure_not_reported :
    failedSol.success = false ∧
    isOkE (postprocess (conductances exModel) 2 [("C", 0), ("O", 1)]
      (valueAt exProtocol) id failedSol) = true ∧
    (postprocess (conductances exModel) 2 [("C", 0), ("O", 1)]
      (valueAt exProtocol) id failedSol).map (fun r => r.time_ms.length) =
      .ok 2 := by
  refine ⟨rfl, ?_, ?_⟩ <;>
    norm_num [postprocess, resolveAll, failedSol, valueAt, alookup,
      exProtocol, conductances, exModel, isOkE, List.find?, dotCols,
      Except.map]

/-- C7 amended: `SimulationEngine.run` never inspects the solver outcome —
its post-solve path (`simulation.py:163-192`) depends only on the returned
`t`/`y` arrays, so the success flag and diagnostic message cannot influence
the result and no failure is ever surfaced; partial output is returned
silently. -/
theorem c7_success_flag_ignored (cond : List ℚ) (n : ℕ)
    (smap : List (String × ℕ)) (va : String → ℚ → Option ℚ) (log : ℚ → ℚ)
    (t : List ℚ) (y : List (List ℚ)) (msg1 msg2 : String) (b1 b2 : Bool) :
    postprocess cond n smap va log ⟨b1, msg1, t, y⟩ =
      postprocess cond n smap va log ⟨b2, msg2, t, y⟩ := by
  rfl

/-- Recognizes a `parseError` outcome. -/
def isParseErrB {α : Type} : Except PyErr α → Bool
  | .error (.parseError _) => true
  | _ => false

lemma decVal_01 : decVal ['0'] ['1'] = 1 / 10 := by
  norm_num [decVal, show '1'.toNat - '0'.toNat = 1 from rfl,
    show '0'.toNat - '0'.toNat = 0 from rfl]

lemma decVal_250 : decVal ['2', '5'] ['0'] = 25 := by
  norm_num [decVal, show '2'.toNat - '0'.toNat = 2 from rfl,
    show '5'.toNat - '0'.toNat = 5 from rfl,
    show '0'.toNat - '0'.toNat = 0 from rfl]

/-- C8 counterexample: the equation `"0.1 * W"` contains the identifier `W`,
neither `V` nor `exp`, yet `_prepare_rate_equations` (engine construction)
**succeeds**, producing the compiled table with `W` as a free symbol: sympy's
`parse_expr` silently creates a `Symbol` instead of raising an
`UndefinedSymbolError`. -/
theorem c8_unknown_identifier_accepted :
    prepare_rate_equations [⟨"k1", "0.1 * W"⟩] =
      .ok [("k1", SymExpr.mul (SymExpr.num (1 / 10)) (SymExpr.sym "W"))] := by
  have h : prepare_rate_equations [⟨"k1", "0.1 * W"⟩] =
      .ok [("k1", SymExpr.mul (SymExpr.num (decVal ['0'] ['1'])) (SymExpr.sym "W"))] := rfl
  rw [h, decVal_01]

/-- C8 amended: malformed syntax does abort engine construction (with sympy's
own parse failure, no dedicated `ParseError` class), but an unknown
identifier is accepted at construction and only fails when the lambdified
callable is first invoked during a run, raising `NameError` for the offending
token; on well-formed equations the compiler produces the documented values
(`0.1 * exp(V / 25.0)` evaluates to `0.1 · exp(50/25)` at `V = 50`). -/
theorem c8_rate_compilation_behavior (expf : ℚ → ℚ) :
    evalExpr expf 0 (SymExpr.mul (SymExpr.num (1 / 10)) (SymExpr.sym "W")) =
      .error (.nameError "W") ∧
    isParseErrB (prepare_rate_equations [⟨"k1", "0.1 * exp(V"⟩]) = true ∧
    parse_expr "0.1 * exp(V / 25.0)" =
      .ok (SymExpr.mul (SymExpr.num (1 / 10))
        (SymExpr.expApp (SymExpr.div (SymExpr.sym "V") (SymExpr.num 25)))) ∧
    evalExpr expf 50 (SymExpr.mul (SymExpr.num (1 / 10))
        (SymExpr.expApp (SymExpr.div (SymExpr.sym "V") (SymExpr.num 25)))) =
      .ok (1 / 10 * expf (50 / 25)) ∧
    (50 : ℚ) / 25 = 2 := by
  refine ⟨rfl, rfl, ?_, rfl, by norm_num⟩
  have h : parse_expr "0.1 * exp(V / 25.0)" =
      .ok (SymExpr.mul (SymExpr.num (decVal ['0'] ['1']))
        (SymExpr.expApp (SymExpr.div (SymExpr.sym "V")
          (SymExpr.num (decVal ['2', '5'] ['0']))))) := rfl
  rw [h, decVal_01, decVal_250]

/-- C9: with a protocol that omits the volume entries (as
`VALID_PROTOCOL_DATA` of the validation tests does), the engine does not
substitute the numeric placeholders `1e-12`/`1e-6`: the holding-map lookups
miss and the fallback `HoldingValue(name=...)` constructions fail schema
validation, so engine construction errors instead. -/
theorem c9_volume_defaults_eval :
    alookup fixtureHM "volume_internal_L" = none ∧
    alookup fixtureHM "volume_external_L" = none ∧
    init_volume fixtureHM "volume_internal_L" = .error .validationError ∧
    init_volume fixtureHM "volume_external_L" = .error .validationError :=
  ⟨rfl, rfl, rfl, rfl⟩

/-- C10: `Stimulus.get_value_at_time` never returns `None` for a missing
variable — it raises `AttributeError` on **every** call (the body reads
`self.holding_mape`, which is never assigned), while the `None → 0` fallback
the claim describes does exist in the ODE right-hand side
(`simulation.py:103`) and maps an unresolved voltage to `0`. -/
theorem c10_missing_variable_eval :
    (∀ (s : Stimulus) (name : String) (t : ℚ),
      get_value_at_time s name t = .error .attributeError) ∧
    resolveV none = 0 ∧
    resolveV (some 40) = 40 :=
  ⟨fun _ _ _ => rfl, rfl, rfl⟩

end IonLabs
